import Mathlib

/-!
Shallow embedding of the core of the `discord-ws` Discord Gateway client
(`src/discord_ws/client/`): the exponential reconnect backoff, the
heartbeat engine, the protocol dispatcher of `Client._receive_event`,
the close-code classification of `Client._handle_connection_closed`,
the Identify/Resume payload builders, and the two transport streams
(`PlainTextStream`, `ZLibStream`).

JSON values are modelled by the inductive `JVal`; Python dicts appear as
association lists.  Machine floats (monotonic clock readings, backoff
durations) are modelled by rationals; the uniform random draws of
`random.Random.random()` appear as explicit rational arguments.
-/

/-- A JSON value, as produced by `json.loads` / consumed by `json.dumps`. -/
inductive JVal where
  | null
  | bool (b : Bool)
  | int (n : Int)
  | str (s : String)
  | arr (xs : List JVal)
  | obj (fields : List (String × JVal))

/-- Dictionary lookup on a JSON object (`d["key"]`), `none` on a missing
key or a non-object. -/
def JVal.lookup (v : JVal) (key : String) : Option JVal :=
  match v with
  | .obj fields => fields.lookup key
  | _ => none

/-- Python truthiness of a JSON value, as used by `if not event["d"]`. -/
def JVal.falsy (v : JVal) : Bool :=
  match v with
  | .null => true
  | .bool b => !b
  | .int n => n == 0
  | .str s => s == ""
  | .arr xs => xs.isEmpty
  | .obj fields => fields.isEmpty

/-- Encodes an optional integer (`int | None` in the source) as JSON. -/
def optIntVal : Option Int → JVal
  | none => JVal.null
  | some n => JVal.int n

/-! Embedding of `backoff.py`: `ExponentialBackoff`. -/

/-- The state of `ExponentialBackoff`: the constructor parameters
`offset`, `base`, `max_occurrences`, `randomize` together with the
mutable fields `occurrences` and `_last_called`.  The integer
parameters `offset` and `base` are embedded into ℚ, where all their
arithmetic takes place in the source (float context). -/
structure ExponentialBackoff where
  offset : ℚ
  base : ℚ
  maxOccurrences : Nat
  randomize : Bool
  occurrences : Nat
  lastCalled : ℚ

/-- Source `ExponentialBackoff._duration`: `offset + base ** occurrences`. -/
def ExponentialBackoff.duration (b : ExponentialBackoff) (occurrences : Nat) : ℚ :=
  b.offset + b.base ^ occurrences

/-- The first `if` of `ExponentialBackoff.__call__`: reset
`occurrences` to 0 when the elapsed time exceeds
`_duration(max_occurrences + 1)`. -/
def ExponentialBackoff.resetOccurrences (b : ExponentialBackoff) (elapsed : ℚ) : ExponentialBackoff :=
  if elapsed > b.duration (b.maxOccurrences + 1) then { b with occurrences := 0 } else b

/-- The second `if` of `ExponentialBackoff.__call__`: increment
`occurrences` while it is below `max_occurrences`. -/
def ExponentialBackoff.bumpOccurrences (b : ExponentialBackoff) : ExponentialBackoff :=
  if b.occurrences < b.maxOccurrences then { b with occurrences := b.occurrences + 1 } else b

/-- Source `ExponentialBackoff.__call__`.  `now` is the `time.monotonic()`
reading and `r` the `random.Random.random()` draw; both are impure
inputs of the source, made explicit arguments here.  Returns the
duration together with the updated state. -/
def ExponentialBackoff.call (b : ExponentialBackoff) (now r : ℚ) : ℚ × ExponentialBackoff :=
  let elapsed := now - b.lastCalled
  let b1 : ExponentialBackoff := { b with lastCalled := now }
  let b2 : ExponentialBackoff := b1.resetOccurrences elapsed
  let occ : Nat := b2.occurrences
  let b3 : ExponentialBackoff := b2.bumpOccurrences
  let d : ℚ := b3.duration occ
  (if b3.randomize then d + r else d, b3)

/-! Embedding of the payload builders. -/

/-- Source `Client._create_resume_payload`: the op-6 Resume payload
`{"op": 6, "d": {"token": ..., "session_id": ..., "seq": ...}}`.
`sequence` is `self._heart.sequence`. -/
def Client.createResumePayload (token sessionId : String) (sequence : Option Int) : JVal :=
  JVal.obj
    [("op", JVal.int 6),
     ("d", JVal.obj
       [("token", JVal.str token),
        ("session_id", JVal.str sessionId),
        ("seq", optIntVal sequence)])]

/-! Embedding of `stream.py`, send direction.

`PlainTextStream.send` and `ZLibStream.send` both run
`data = json.dumps(payload); await self.ws.send(data)`.  The external
serializer `json.dumps` is a parameter `dumps`; each function returns
the exact text frame handed to `ws.send`. -/

/-- Source `PlainTextStream.send`: the text frame sent for a payload. -/
def PlainTextStream.send (dumps : JVal → String) (payload : JVal) : String :=
  dumps payload

/-- Source `ZLibStream.send`: the text frame sent for a payload. -/
def ZLibStream.send (dumps : JVal → String) (payload : JVal) : String :=
  dumps payload

/-! Embedding of `heartbeat.py`: the `Heart` state and the body of the
heartbeat loop. -/

/-- The mutable state of `Heart`: `acknowledged`, `sequence`, the
`_interval` (seconds, as ℚ) and the `_beat_event` flag. -/
structure Heart where
  acknowledged : Bool
  sequence : Option Int
  interval : Option ℚ
  beatEvent : Bool

/-- Source `Heart._create_heartbeat_payload`: `{"op": 1, "d": self.sequence}`. -/
def Heart.createHeartbeatPayload (h : Heart) : JVal :=
  JVal.obj [("op", JVal.int 1), ("d", optIntVal h.sequence)]

/-- Outcome of one execution of `Heart._send_heartbeat`. -/
inductive HeartSendResult where
  | sent (h : Heart) (payload : JVal)
  | heartbeatLost (closeCode : Nat) (closeReason : String)

/-- Source `Heart._send_heartbeat`: when the previous heartbeat was not
acknowledged, close the websocket with `(1002, "Heartbeat ACK lost")`
and raise `HeartbeatLostError`; otherwise send the heartbeat payload,
clear `_beat_event` and set `acknowledged = False`. -/
def Heart.sendHeartbeat (h : Heart) : HeartSendResult :=
  if !h.acknowledged then
    HeartSendResult.heartbeatLost 1002 "Heartbeat ACK lost"
  else
    HeartSendResult.sent { h with beatEvent := false, acknowledged := false }
      h.createHeartbeatPayload

/-- An input to the heartbeat engine: either a heartbeat becomes due
(the sleep in `Heart._run` finished, so `_send_heartbeat` executes), or
an op-11 acknowledgement arrives (the receive loop runs
`self._heart.acknowledged = True`). -/
inductive HeartInput where
  | due
  | ackReceived
  deriving DecidableEq

/-- An observable output of the heartbeat engine. -/
inductive HeartOutput where
  | sent (payload : JVal)
  | closed (code : Nat) (reason : String)

/-- Runs the heartbeat engine over a list of inputs; a raised
`HeartbeatLostError` terminates the loop. -/
def Heart.run (h : Heart) : List HeartInput → List HeartOutput
  | [] => []
  | HeartInput.due :: rest =>
    match h.sendHeartbeat with
    | HeartSendResult.sent h2 p => HeartOutput.sent p :: h2.run rest
    | HeartSendResult.heartbeatLost c r => [HeartOutput.closed c r]
  | HeartInput.ackReceived :: rest => Heart.run { h with acknowledged := true } rest

/-- Counts the heartbeats sent in a list of outputs. -/
def countSent : List HeartOutput → Nat
  | [] => 0
  | HeartOutput.sent _ :: rest => countSent rest + 1
  | HeartOutput.closed _ _ :: rest => countSent rest

/-- Source `Heart.stay_alive`, `finally` block: on every exit of the
context manager the interval is cleared via `set_interval(None)` and
`acknowledged` is reset to `True`; `sequence` is deliberately not
touched so that it persists between connections when resuming. -/
def Heart.stayAliveExit (h : Heart) : Heart :=
  { h with interval := none, acknowledged := true }

/-! Embedding of `client.py`: session state, the `_ws` property,
`close`, `_invalidate_session` and `_receive_event`. -/

/-- The session-relevant state of `Client`: the heart, the stored
resume URL and session id, and whether `_current_websocket` is set. -/
structure Client where
  heart : Heart
  resumeGatewayUrl : Option String
  sessionId : Option String
  websocketActive : Bool

/-- Source `Client._ws` property: the current websocket, or a
`RuntimeError` when no connection is active. -/
def Client.ws (c : Client) : Except String Unit :=
  if c.websocketActive then Except.ok ()
  else Except.error "No active websocket connection; did you call Client.run()?"

/-- Source `Client.close`: `await self._ws.close(1000, reason="Going offline")`.
Returns the (unchanged) client state and the close frame sent, or the
`RuntimeError` raised by the `_ws` property. -/
def Client.close (c : Client) : Except String (Client × Nat × String) :=
  match c.ws with
  | Except.error msg => Except.error msg
  | Except.ok _ => Except.ok (c, 1000, "Going offline")

/-- Source `Client._invalidate_session`: clears `_session_id` (only). -/
def Client.invalidateSession (c : Client) : Client :=
  { c with sessionId := none }

/-- A gateway event, mirroring the `Event` typed dict of `events.py`:
`op` plus the optional `d`, `s` and `t` members. -/
structure GatewayEvent where
  op : Int
  d : JVal := JVal.null
  s : Option Int := none
  t : Option String := none

/-- An externally observable action of `Client._receive_event`. -/
inductive ClientAction where
  | dispatch (e : GatewayEvent)
  | closeWs (code : Nat) (reason : String)

/-- Source `Client._receive_event`, given the already-parsed event.
Returns the updated client state and the emitted actions, or `none`
when the source would raise an uncaught exception (a missing payload
key, or the `_ws` property failing).  State updates on the heart model
`beat_soon()`, `set_interval(...)` and `acknowledged = True`. -/
def Client.receiveEvent (c : Client) (e : GatewayEvent) : Option (Client × List ClientAction) :=
  if e.op == 0 then
    let c1 : Client := { c with heart := { c.heart with sequence := e.s } }
    if e.t == some "READY" then
      match e.d.lookup "resume_gateway_url", e.d.lookup "session_id" with
      | some (JVal.str url), some (JVal.str sid) =>
        some ({ c1 with resumeGatewayUrl := some url, sessionId := some sid },
          [ClientAction.dispatch e])
      | _, _ => none
    else
      some (c1, [ClientAction.dispatch e])
  else if e.op == 1 then
    some ({ c with heart := { c.heart with beatEvent := true } }, [])
  else if e.op == 7 then
    match c.ws with
    | Except.ok _ => some (c, [ClientAction.closeWs 1002 "Reconnect ACK"])
    | Except.error _ => none
  else if e.op == 9 then
    let c1 : Client := if e.d.falsy then c.invalidateSession else c
    match c1.ws with
    | Except.ok _ => some (c1, [ClientAction.closeWs 1002 "Invalid Session ACK"])
    | Except.error _ => none
  else if e.op == 10 then
    match e.d.lookup "heartbeat_interval" with
    | some (JVal.int n) =>
      some ({ c with heart := { c.heart with interval := some ((n : ℚ) / 1000) } }, [])
    | _ => none
  else if e.op == 11 then
    some ({ c with heart := { c.heart with acknowledged := true } }, [])
  else
    some (c, [])

/-! Embedding of `constants.py` and of the close-code handling in
`client.py`. -/

/-- Source `GATEWAY_CLOSE_CODES`: close codes recognized by Discord. -/
def GATEWAY_CLOSE_CODES : List (Nat × String) :=
  [(4000, "Unknown Error"),
   (4001, "Unknown Opcode"),
   (4002, "Decode Error"),
   (4003, "Not Authenticated"),
   (4004, "Authentication Failed"),
   (4005, "Already Authenticated"),
   (4007, "Invalid Sequence"),
   (4008, "Rate Limited"),
   (4009, "Session Timed Out"),
   (4010, "Invalid Shard"),
   (4011, "Sharding Required"),
   (4012, "Invalid API Version"),
   (4013, "Invalid Intents"),
   (4014, "Disallowed Intents")]

/-- Source `GATEWAY_RECONNECT_CLOSE_CODES`: close codes where the
client is allowed to reconnect. -/
def GATEWAY_RECONNECT_CLOSE_CODES : List Nat :=
  [4000, 4001, 4002, 4003, 4005, 4006, 4007, 4008, 4009]

/-- Source `GATEWAY_CANNOT_RESUME_CLOSE_CODES`: close codes where the
client must reset its current session. -/
def GATEWAY_CANNOT_RESUME_CLOSE_CODES : List Nat :=
  [4007, 4009]

/-- A close frame (`websockets.frames.Close`): code and reason. -/
structure CloseInfo where
  code : Nat
  reason : String

/-- The data of a `websockets.exceptions.ConnectionClosed` exception:
the close frame received, the close frame sent, and whether the
received frame came first (`None` when fewer than two frames were
exchanged). -/
structure ConnClosedExc where
  rcvd : Option CloseInfo
  sent : Option CloseInfo
  rcvdThenSent : Option Bool

/-- Python `not` applied to `bool | None` (`not e.rcvd_then_sent`). -/
def pyNot : Option Bool → Bool
  | some true => false
  | _ => true

/-- Source `Client._get_connection_closed_reason`: a human-readable
reason; falls back to `str(close)` for unknown codes. -/
def Client.getConnectionClosedReason (close : CloseInfo) : String :=
  match GATEWAY_CLOSE_CODES.lookup close.code with
  | some reason => toString close.code ++ " " ++ reason
  | none => "Close(code=" ++ toString close.code ++ ", reason=" ++ close.reason ++ ")"

/-- The exceptions built by `Client._make_connection_closed_error`:
`AuthenticationFailedError`, `PrivilegedIntentsError` (carrying the
`required_intents` mask) or the generic `ConnectionClosedError`. -/
inductive ConnectionClosedError where
  | authenticationFailed (code : Nat) (reason : String)
  | privilegedIntents (requiredIntents : Nat) (code : Nat) (reason : String)
  | connectionClosed (code : Nat) (reason : String)

/-- Source `Client._make_connection_closed_error`.  `intents` is the
client's configured intents bitfield and `privileged` is the mask
returned by `Intents.privileged()`.  Modelled from the spec: the
`Intents` module is not under `src/`; the spec describes it as a 64-bit
mask whose `privileged` subset covers GUILD_MEMBERS, GUILD_PRESENCES
and MESSAGE_CONTENT, and it enters this function only through the mask
value, so the mask is taken as a parameter. -/
def Client.makeConnectionClosedError (intents privileged : Nat) (code : Nat)
    (reason : String) : ConnectionClosedError :=
  if code == 4004 then
    ConnectionClosedError.authenticationFailed code reason
  else if code == 4014 then
    ConnectionClosedError.privilegedIntents (Nat.land intents privileged) code reason
  else
    ConnectionClosedError.connectionClosed code reason

/-- Source `Client._handle_connection_closed`: returns the updated
client state (carrying the `_invalidate_session` side effect) together
with either the reconnect decision (`Sum.inl`) or the raised exception
(`Sum.inr`). -/
def Client.handleConnectionClosed (intents privileged : Nat) (c : Client)
    (e : ConnClosedExc) : Client × (Bool ⊕ ConnectionClosedError) :=
  if e.rcvd.isNone && e.sent.isNone then
    (c, Sum.inl true)
  else if e.sent.isSome && pyNot e.rcvdThenSent then
    match e.sent with
    | some sentFrame =>
      (c, Sum.inl (!(sentFrame.code == 1000 || sentFrame.code == 1001)))
    | none => (c, Sum.inl true)
  else
    match e.rcvd with
    | some rcvdFrame =>
      let code := rcvdFrame.code
      let reason := Client.getConnectionClosedReason rcvdFrame
      let c1 : Client :=
        if GATEWAY_CANNOT_RESUME_CLOSE_CODES.contains code then c.invalidateSession else c
      if !(GATEWAY_RECONNECT_CLOSE_CODES.contains code) then
        (c1, Sum.inr (Client.makeConnectionClosedError intents privileged code reason))
      else
        (c1, Sum.inl true)
    | none => (c, Sum.inl true)

/-! Embedding of `stream.py`, receive direction of `ZLibStream`.

Bytes are natural numbers < 256.  The external `zlib` decompressor is
modelled by a parameter `inflate : List Nat → List Nat` mapping the
total byte sequence fed to a decompressor object so far to the total
output produced so far; the incremental output of one
`_decompress_obj.decompress(chunk)` call is then the new suffix.  The
external `json.loads` (composed with UTF-8 decoding) is a parameter
`parse`.  The state of the entered stream is the pair of
`_decompress_buffer` and the bytes already fed to `_decompress_obj`. -/

/-- Source `Z_SYNC_FLUSH`: the four-byte marker `00 00 FF FF`. -/
def Z_SYNC_FLUSH : List Nat := [0, 0, 255, 255]

/-- The state of an entered `ZLibStream`: the fragment buffer and the
bytes already consumed by the long-lived decompressor object. -/
structure ZLibStream where
  buffer : List Nat
  fed : List Nat

/-- Incremental output of `zlib._Decompress.decompress(chunk)` for a
decompressor that has already been fed `fed`, in terms of the
cumulative-output function `inflate`. -/
def decompressChunk (inflate : List Nat → List Nat) (fed chunk : List Nat) : List Nat :=
  (inflate (fed ++ chunk)).drop (inflate fed).length

/-- Source `ZLibStream.recv`, body of the `while True` loop for one
received fragment: append the fragment to the buffer; if the fragment
ends with `Z_SYNC_FLUSH`, decompress the whole buffer, clear it, and
attempt to parse (`some (some v)` = event returned, `some none` = the
parse raises, `none` = keep receiving). -/
def ZLibStream.recvStep (inflate : List Nat → List Nat) (parse : List Nat → Option JVal)
    (st : ZLibStream) (frag : List Nat) : ZLibStream × Option (Option JVal) :=
  let buf := st.buffer ++ frag
  if Z_SYNC_FLUSH.isSuffixOf frag then
    ({ buffer := [], fed := st.fed ++ buf }, some (parse (decompressChunk inflate st.fed buf)))
  else
    ({ st with buffer := buf }, none)

/-- Repeatedly calling `ZLibStream.recv` over a queue of websocket
fragments: the list of events produced, in order.  An exception from
`parse` aborts the receive loop. -/
def ZLibStream.recvAll (inflate : List Nat → List Nat) (parse : List Nat → Option JVal) :
    ZLibStream → List (List Nat) → List JVal
  | _, [] => []
  | st, frag :: rest =>
    match ZLibStream.recvStep inflate parse st frag with
    | (st2, none) => ZLibStream.recvAll inflate parse st2 rest
    | (_, some none) => []
    | (st2, some (some v)) => v :: ZLibStream.recvAll inflate parse st2 rest

/-- A cumulative-output function witnessing the zlib streaming
contract for records of the form `plain ++ Z_SYNC_FLUSH` whose plain
bytes avoid `0` and `255`: it strips the marker bytes. -/
def stripInflate (bs : List Nat) : List Nat :=
  bs.filter fun b => (b != 0) && (b != 255)

/-- A restriction of `json.loads` to the byte strings "1", "2" and
"12" (the ASCII digit documents used in concrete instances below);
it agrees with `json.loads` on these inputs. -/
def smallJsonLoads (bs : List Nat) : Option JVal :=
  if bs == [49] then some (JVal.int 1)
  else if bs == [50] then some (JVal.int 2)
  else if bs == [49, 50] then some (JVal.int 12)
  else none

/-- A SYNC_FLUSH-terminated record of the inbound zlib stream: its
compressed wire bytes (ending with the marker), the decompressed
plaintext, and the event parsed from the plaintext. -/
structure ZRecord where
  compressed : List Nat
  plain : List Nat
  event : JVal

/-- A websocket chunking of one record: a nonempty list of fragments
concatenating to the record where only the final fragment ends with the
`Z_SYNC_FLUSH` marker. -/
def GoodChunking (chunks : List (List Nat)) (record : List Nat) : Prop :=
  ∃ init lastFrag, chunks = init ++ [lastFrag] ∧ (init ++ [lastFrag]).flatten = record ∧
    (∀ f ∈ init, Z_SYNC_FLUSH.isSuffixOf f = false) ∧ Z_SYNC_FLUSH.isSuffixOf lastFrag = true

/-! Concrete demonstration inputs used by witnesses and
counterexamples. -/

/-- A demonstration client state with an established session and an
active websocket connection. -/
def demoClient : Client :=
  { heart := { acknowledged := true, sequence := some 5, interval := none, beatEvent := false },
    resumeGatewayUrl := some "wss://r.example", sessionId := some "abc", websocketActive := true }

/-- A demonstration READY dispatch event with sequence number 1. -/
def readyEvent : GatewayEvent :=
  { op := 0, s := some 1, t := some "READY",
    d := JVal.obj [("resume_gateway_url", JVal.str "wss://r.example"),
      ("session_id", JVal.str "abc")] }

/-- A non-resumable InvalidSession event (`{"op": 9, "d": false}`). -/
def invalidSessionEvent : GatewayEvent :=
  { op := 9, d := JVal.bool false }

/-! Theorems.  Each claim has exactly one theorem, preceded by its
claim id. -/

/-- C7: for every stored `session_id` and `last_sequence`, the Resume
payload is exactly `{op: 6, d: {token, session_id, seq: last_sequence}}`:
the `d` object has the three keys `token`, `session_id` and `seq`, and
the stored last sequence is carried under the key `seq` (not under
`session_id` a second time). -/
theorem createResumePayload_spec (token sessionId : String) (sequence : Option Int) :
    (Client.createResumePayload token sessionId sequence).lookup "op" = some (JVal.int 6) ∧
    ∃ d, (Client.createResumePayload token sessionId sequence).lookup "d" = some (JVal.obj d) ∧
      d.map Prod.fst = ["token", "session_id", "seq"] ∧
      (JVal.obj d).lookup "token" = some (JVal.str token) ∧
      (JVal.obj d).lookup "session_id" = some (JVal.str sessionId) ∧
      (JVal.obj d).lookup "seq" = some (optIntVal sequence) := by
  exact ⟨rfl,
    [("token", JVal.str token), ("session_id", JVal.str sessionId),
     ("seq", optIntVal sequence)],
    rfl, rfl, rfl, rfl, rfl⟩

/-- C8: `ZLibStream.send` is equivalent to `PlainTextStream.send`: for
every payload both send the JSON-encoded text frame unmodified, with no
compression applied in the outbound direction. -/
theorem zlibSend_eq_plainTextSend (dumps : JVal → String) (payload : JVal) :
    ZLibStream.send dumps payload = PlainTextStream.send dumps payload ∧
    ZLibStream.send dumps payload = dumps payload ∧
    PlainTextStream.send dumps payload = dumps payload :=
  ⟨rfl, rfl, rfl⟩

/-- C9: whenever the `Heart.stay_alive` context exits, the interval is
reset to `None` and `acknowledged` is reset to `True`, while `sequence`
is left unchanged so it persists into the Resume payload of the next
connection. -/
theorem stayAliveExit_spec (h : Heart) :
    h.stayAliveExit.interval = none ∧
    h.stayAliveExit.acknowledged = true ∧
    h.stayAliveExit.sequence = h.sequence ∧
    (∀ token sessionId, Client.createResumePayload token sessionId h.stayAliveExit.sequence =
      Client.createResumePayload token sessionId h.sequence) :=
  ⟨rfl, rfl, rfl, fun _ _ => rfl⟩

/-- C10: calling `Client.close()` when no websocket connection is
active raises the `RuntimeError` of the `_ws` property; no close frame
is sent and no client state is returned modified. -/
theorem close_without_connection_raises (c : Client) (h : c.websocketActive = false) :
    Client.close c =
      Except.error "No active websocket connection; did you call Client.run()?" := by
  simp [Client.close, Client.ws, h]

/-- Witness for C10 at a concrete idle client. -/
theorem close_without_connection_raises_witness :
    Client.close
        { heart := { acknowledged := true, sequence := none, interval := none, beatEvent := false },
          resumeGatewayUrl := none, sessionId := none, websocketActive := false } =
      Except.error "No active websocket connection; did you call Client.run()?" :=
  close_without_connection_raises _ rfl

/-- Helper for C2: without any op-11 acknowledgement arriving, the
heartbeat engine sends at most one heartbeat (none at all when the
previous one is still unacknowledged). -/
theorem heart_run_countSent_le :
    ∀ (inputs : List HeartInput) (h : Heart), HeartInput.ackReceived ∉ inputs →
      countSent (h.run inputs) ≤ if h.acknowledged then 1 else 0 := by
  intro inputs
  induction inputs with
  | nil =>
    intro h _
    simp [Heart.run, countSent]
  | cons i rest ih =>
    intro h hmem
    match i with
    | HeartInput.ackReceived => exact absurd (List.mem_cons_self _ _) hmem
    | HeartInput.due =>
      have hrest : HeartInput.ackReceived ∉ rest := fun hr => hmem (List.mem_cons_of_mem _ hr)
      cases hack : h.acknowledged with
      | false =>
        simp [Heart.run, Heart.sendHeartbeat, hack, countSent]
      | true =>
        have h2 := ih { h with beatEvent := false, acknowledged := false } hrest
        simp only [show ({ h with beatEvent := false, acknowledged := false } : Heart).acknowledged
            = false from rfl, Bool.false_eq_true, if_false] at h2
        simp [Heart.run, Heart.sendHeartbeat, hack, countSent]
        omega

/-- C2: on each iteration of the heartbeat loop, when a heartbeat is
due: if `acknowledged` is false the websocket is closed with
`(1002, "Heartbeat ACK lost")` and `HeartbeatLostError` is raised with
no new heartbeat sent; otherwise `{op: 1, d: last_sequence}` is sent
and `acknowledged` is set to false.  Hence, without an op-11
acknowledgement, at most one heartbeat is ever outstanding. -/
theorem heart_sendHeartbeat_spec (h : Heart) :
    (h.acknowledged = false →
      h.sendHeartbeat = HeartSendResult.heartbeatLost 1002 "Heartbeat ACK lost") ∧
    (h.acknowledged = true →
      h.sendHeartbeat =
        HeartSendResult.sent { h with beatEvent := false, acknowledged := false }
          (JVal.obj [("op", JVal.int 1), ("d", optIntVal h.sequence)])) ∧
    (∀ inputs : List HeartInput, HeartInput.ackReceived ∉ inputs →
      countSent (h.run inputs) ≤ if h.acknowledged then 1 else 0) := by
  refine ⟨fun hack => ?_, fun hack => ?_, fun inputs hmem => heart_run_countSent_le inputs h hmem⟩
  · simp [Heart.sendHeartbeat, hack]
  · simp [Heart.sendHeartbeat, Heart.createHeartbeatPayload, hack]

/-- Witness for C2: a fresh heart with sequence 42 sends
`{op: 1, d: 42}`; a heart with a lost acknowledgement closes with
`(1002, "Heartbeat ACK lost")`; and two due heartbeats with no
acknowledgement in between produce at most one send. -/
theorem heart_sendHeartbeat_spec_witness :
    (Heart.sendHeartbeat { acknowledged := true, sequence := some 42, interval := some 41, beatEvent := true } =
      HeartSendResult.sent
        { acknowledged := false, sequence := some 42, interval := some 41, beatEvent := false }
        (JVal.obj [("op", JVal.int 1), ("d", optIntVal (some 42))])) ∧
    (Heart.sendHeartbeat { acknowledged := false, sequence := some 42, interval := some 41, beatEvent := false } =
      HeartSendResult.heartbeatLost 1002 "Heartbeat ACK lost") ∧
    countSent (Heart.run { acknowledged := true, sequence := some 42, interval := some 41, beatEvent := true }
      [HeartInput.due, HeartInput.due]) ≤ 1 := by
  refine ⟨(heart_sendHeartbeat_spec _).2.1 rfl, (heart_sendHeartbeat_spec _).1 rfl, ?_⟩
  have := (heart_sendHeartbeat_spec
    { acknowledged := true, sequence := some 42, interval := some 41, beatEvent := true }).2.2
    [HeartInput.due, HeartInput.due] (by decide)
  simpa using this

/-- C4: when a Dispatch event (op 0) with sequence number S is
received, `heart.sequence` is set to S (so the next outbound heartbeat
payload has `d = S`); if the event name is "READY",
`resume_gateway_url` and `session_id` are additionally stored from the
payload; and the event is handed to the application dispatch
callback. -/
theorem receiveEvent_dispatch_spec (c : Client) (e : GatewayEvent) (S : Int)
    (hop : e.op = 0) (hs : e.s = some S) :
    (∀ c2 acts, c.receiveEvent e = some (c2, acts) →
      c2.heart.sequence = some S ∧
      c2.heart.createHeartbeatPayload = JVal.obj [("op", JVal.int 1), ("d", JVal.int S)] ∧
      acts = [ClientAction.dispatch e]) ∧
    (e.t ≠ some "READY" →
      c.receiveEvent e =
        some ({ c with heart := { c.heart with sequence := some S } },
          [ClientAction.dispatch e])) ∧
    (∀ url sid, e.t = some "READY" →
      e.d.lookup "resume_gateway_url" = some (JVal.str url) →
      e.d.lookup "session_id" = some (JVal.str sid) →
      c.receiveEvent e =
        some ({ c with
            resumeGatewayUrl := some url, sessionId := some sid,
            heart := { c.heart with sequence := some S } },
          [ClientAction.dispatch e])) := by
  refine ⟨?_, ?_, ?_⟩
  · intro c2 acts hrec
    simp only [Client.receiveEvent, hop] at hrec
    norm_num at hrec
    split at hrec
    · split at hrec
      · rcases hrec with ⟨rfl, rfl⟩
        refine ⟨by simp [hs], by simp [Heart.createHeartbeatPayload, hs, optIntVal], rfl⟩
      · exact absurd hrec (by simp)
    · rcases hrec with ⟨rfl, rfl⟩
      refine ⟨by simp [hs], by simp [Heart.createHeartbeatPayload, hs, optIntVal], rfl⟩
  · intro ht
    simp [Client.receiveEvent, hop, hs, ht]
  · intro url sid ht hurl hsid
    simp [Client.receiveEvent, hop, hs, ht, hurl, hsid]

/-- Witness for C4: processing the demonstration READY event stores
sequence 1, the resume URL and the session id, and dispatches the
event. -/
theorem receiveEvent_dispatch_spec_witness :
    Client.receiveEvent demoClient readyEvent =
      some ({ demoClient with
          resumeGatewayUrl := some "wss://r.example", sessionId := some "abc",
          heart := { demoClient.heart with sequence := some 1 } },
        [ClientAction.dispatch readyEvent]) :=
  (receiveEvent_dispatch_spec demoClient readyEvent 1 rfl rfl).2.2 "wss://r.example" "abc"
    rfl rfl rfl

/-- Counterexample for C6: on `{"op": 9, "d": false}` the source
clears only `_session_id`; `_resume_gateway_url` keeps its value
`some "wss://r.example"` instead of being cleared as the claim
states. -/
theorem receiveEvent_invalidSession_counterexample :
    Client.receiveEvent demoClient invalidSessionEvent =
      some ({ demoClient with sessionId := none },
        [ClientAction.closeWs 1002 "Invalid Session ACK"]) ∧
    ({ demoClient with sessionId := none } : Client).resumeGatewayUrl = some "wss://r.example" ∧
    some "wss://r.example" ≠ (none : Option String) :=
  ⟨rfl, rfl, by simp⟩

/-- C6 (amended): when an InvalidSession event (op 9) is received: if
`d` is falsy, `session_id` is cleared while `resume_gateway_url` and
the heart state (including `last_sequence`) are retained; if `d` is
truthy, no session field changes; in both cases the websocket is closed
with code 1002 and reason "Invalid Session ACK". -/
theorem receiveEvent_invalidSession_spec (c : Client) (e : GatewayEvent)
    (hop : e.op = 9) (hws : c.websocketActive = true) :
    (e.d.falsy = true →
      c.receiveEvent e =
        some ({ c with sessionId := none }, [ClientAction.closeWs 1002 "Invalid Session ACK"])) ∧
    (e.d.falsy = false →
      c.receiveEvent e = some (c, [ClientAction.closeWs 1002 "Invalid Session ACK"])) ∧
    (∀ c2 acts, c.receiveEvent e = some (c2, acts) →
      c2.resumeGatewayUrl = c.resumeGatewayUrl ∧ c2.heart = c.heart) := by
  refine ⟨fun hf => ?_, fun hf => ?_, fun c2 acts hrec => ?_⟩
  · simp [Client.receiveEvent, hop, Client.invalidateSession, hf, Client.ws, hws]
  · simp [Client.receiveEvent, hop, Client.invalidateSession, hf, Client.ws, hws]
  · simp only [Client.receiveEvent, hop] at hrec
    norm_num at hrec
    by_cases hf : e.d.falsy
    · simp [hf, Client.invalidateSession, Client.ws, hws] at hrec
      rcases hrec with ⟨rfl, rfl⟩
      exact ⟨rfl, rfl⟩
    · simp [hf, Client.invalidateSession, Client.ws, hws] at hrec
      rcases hrec with ⟨rfl, rfl⟩
      exact ⟨rfl, rfl⟩

/-- Witness for C6 (amended) at the demonstration client, for both a
non-resumable (`d = false`) and a resumable (`d = true`) invalid
session. -/
theorem receiveEvent_invalidSession_spec_witness :
    (Client.receiveEvent demoClient invalidSessionEvent =
      some ({ demoClient with sessionId := none },
        [ClientAction.closeWs 1002 "Invalid Session ACK"])) ∧
    (Client.receiveEvent demoClient { op := 9, d := JVal.bool true } =
      some (demoClient, [ClientAction.closeWs 1002 "Invalid Session ACK"])) :=
  ⟨(receiveEvent_invalidSession_spec demoClient invalidSessionEvent rfl rfl).1 rfl,
   (receiveEvent_invalidSession_spec demoClient { op := 9, d := JVal.bool true } rfl rfl).2.1 rfl⟩

/-- Characterization of `ExponentialBackoff.__call__` when the elapsed
time exceeds `_duration(max_occurrences + 1)`: `occurrences` is reset
to 0 before the duration is computed. -/
theorem ExponentialBackoff.call_of_reset (b : ExponentialBackoff) (now r : ℚ)
    (h : now - b.lastCalled > b.duration (b.maxOccurrences + 1)) :
    b.call now r =
      (b.duration 0 + (if b.randomize then r else 0),
       { b with lastCalled := now, occurrences := if 0 < b.maxOccurrences then 1 else 0 }) := by
  have hcond : b.offset + b.base ^ (b.maxOccurrences + 1) < now - b.lastCalled := by
    simpa [ExponentialBackoff.duration, gt_iff_lt] using h
  simp [ExponentialBackoff.call, ExponentialBackoff.resetOccurrences,
    ExponentialBackoff.bumpOccurrences, ExponentialBackoff.duration, hcond]
  by_cases hr : b.randomize <;> by_cases hm : 0 < b.maxOccurrences <;>
    simp [hr, hm, Prod.ext_iff]

/-- Characterization of `ExponentialBackoff.__call__` when the elapsed
time does not exceed `_duration(max_occurrences + 1)`. -/
theorem ExponentialBackoff.call_of_no_reset (b : ExponentialBackoff) (now r : ℚ)
    (h : ¬(now - b.lastCalled > b.duration (b.maxOccurrences + 1))) :
    b.call now r =
      (b.duration b.occurrences + (if b.randomize then r else 0),
       { b with
         lastCalled := now,
         occurrences :=
           if b.occurrences < b.maxOccurrences then b.occurrences + 1 else b.occurrences }) := by
  have hcond : ¬(b.offset + b.base ^ (b.maxOccurrences + 1) < now - b.lastCalled) := by
    simpa [ExponentialBackoff.duration, gt_iff_lt] using h
  simp [ExponentialBackoff.call, ExponentialBackoff.resetOccurrences,
    ExponentialBackoff.bumpOccurrences, ExponentialBackoff.duration, hcond]
  by_cases hr : b.randomize <;> by_cases hm : b.occurrences < b.maxOccurrences <;>
    simp [hr, hm, Prod.ext_iff]

/-- C5: each call returns `offset + base ^ occurrences` (plus the
uniform [0, 1) draw when `randomize` is set), with `occurrences`
incrementing once per call up to `max_occurrences`, so successive calls
within a short window return non-decreasing base durations capped at
`offset + base ^ max_occurrences`; when the elapsed time since the
previous call exceeds `offset + base ^ (max_occurrences + 1)`,
`occurrences` resets to 0 and that call returns the base duration
`offset + base ^ 0`. -/
theorem exponentialBackoff_call_spec (b : ExponentialBackoff) (now r : ℚ)
    (hocc : b.occurrences ≤ b.maxOccurrences) (hbase : 1 ≤ b.base) :
    (now - b.lastCalled > b.duration (b.maxOccurrences + 1) →
      (b.call now r).1 = b.offset + b.base ^ (0 : ℕ) + (if b.randomize then r else 0) ∧
      (b.call now r).2.occurrences = min 1 b.maxOccurrences) ∧
    (¬(now - b.lastCalled > b.duration (b.maxOccurrences + 1)) →
      (b.call now r).1 = b.offset + b.base ^ b.occurrences + (if b.randomize then r else 0) ∧
      (b.call now r).2.occurrences = min (b.occurrences + 1) b.maxOccurrences) ∧
    ((b.call now r).2.occurrences ≤ b.maxOccurrences ∧
      (b.call now r).1 ≤ b.offset + b.base ^ b.maxOccurrences + (if b.randomize then r else 0)) ∧
    (∀ now2, ¬(now2 - now > b.duration (b.maxOccurrences + 1)) →
      (b.call now 0).1 ≤ ((b.call now 0).2.call now2 0).1) := by
  have hmono : ∀ n m : ℕ, n ≤ m → b.duration n ≤ b.duration m := fun n m hnm =>
    add_le_add_left (pow_le_pow_right₀ hbase hnm) b.offset
  by_cases hres : now - b.lastCalled > b.duration (b.maxOccurrences + 1)
  · rw [ExponentialBackoff.call_of_reset b now r hres]
    refine ⟨fun _ => ⟨?_, ?_⟩, fun hn => absurd hres hn, ⟨?_, ?_⟩, fun now2 hno2 => ?_⟩
    · simp [ExponentialBackoff.duration]
    · simp only
      split_ifs <;> omega
    · simp only
      split_ifs <;> omega
    · simp only
      exact add_le_add_right (by
        simpa [ExponentialBackoff.duration] using hmono 0 b.maxOccurrences (Nat.zero_le _)) _
    · rw [ExponentialBackoff.call_of_reset b now 0 hres]
      rw [ExponentialBackoff.call_of_no_reset _ now2 0 hno2]
      simp only [ite_self, add_zero]
      exact hmono 0 _ (Nat.zero_le _)
  · rw [ExponentialBackoff.call_of_no_reset b now r hres]
    refine ⟨fun hy => absurd hy hres, fun _ => ⟨?_, ?_⟩, ⟨?_, ?_⟩, fun now2 hno2 => ?_⟩
    · simp [ExponentialBackoff.duration]
    · simp only
      split_ifs <;> omega
    · simp only
      split_ifs <;> omega
    · simp only
      refine add_le_add_right ?_ _
      simpa [ExponentialBackoff.duration] using hmono b.occurrences b.maxOccurrences hocc
    · rw [ExponentialBackoff.call_of_no_reset b now 0 hres]
      rw [ExponentialBackoff.call_of_no_reset _ now2 0 hno2]
      simp only [ite_self, add_zero]
      refine hmono b.occurrences _ ?_
      split_ifs <;> omega

/-- Witness for C5: with the default parameters and `occurrences = 3`,
a call one second after the previous one returns `2 ^ 3 + 1/2` for a
random draw of `1/2` and advances `occurrences` to 4. -/
theorem exponentialBackoff_call_spec_witness :
    ((⟨0, 2, 10, true, 3, 100⟩ : ExponentialBackoff).call 101 (1/2)).1 = 17/2 ∧
    ((⟨0, 2, 10, true, 3, 100⟩ : ExponentialBackoff).call 101 (1/2)).2.occurrences = 4 := by
  have h := (exponentialBackoff_call_spec ⟨0, 2, 10, true, 3, 100⟩ 101 (1/2)
    (by norm_num) (by norm_num)).2.1 (by norm_num [ExponentialBackoff.duration])
  refine ⟨?_, ?_⟩
  · rw [h.1]
    norm_num
  · rw [h.2]
    norm_num

/-- Helper for C1: when a remote close frame was received and the
local-close branch does not apply, `_handle_connection_closed` takes
the received-frame branch. -/
theorem handleConnectionClosed_rcvd_branch (intents privileged : Nat) (c : Client)
    (code : Nat) (reason : String) (sent : Option CloseInfo) (rts : Option Bool)
    (hnl : sent = none ∨ pyNot rts = false) :
    Client.handleConnectionClosed intents privileged c ⟨some ⟨code, reason⟩, sent, rts⟩ =
      (let c1 : Client :=
        if GATEWAY_CANNOT_RESUME_CLOSE_CODES.contains code then c.invalidateSession else c
       if !(GATEWAY_RECONNECT_CLOSE_CODES.contains code) then
         (c1, Sum.inr (Client.makeConnectionClosedError intents privileged code
           (Client.getConnectionClosedReason ⟨code, reason⟩)))
       else (c1, Sum.inl true)) := by
  unfold Client.handleConnectionClosed
  rcases hnl with rfl | hnp
  · simp
  · simp [hnp]

/-- C1: the reconnect/invalidate decision of
`Client._handle_connection_closed` matches the close-code table: no
close frame on either side reconnects; a close sent locally with code
1000 or 1001 does not reconnect and any other local code does; a remote
code in {4000, 4001, 4002, 4003, 4005, 4006, 4008} reconnects without
touching the session; a remote 4007 or 4009 reconnects and invalidates
the session; a remote 4004 raises `AuthenticationFailedError`; a remote
4014 raises `PrivilegedIntentsError` carrying the configured intents
masked by the privileged subset; every other remote code raises the
generic `ConnectionClosedError`. -/
theorem handleConnectionClosed_close_code_table (intents privileged : Nat) (c : Client) :
    (∀ rts, Client.handleConnectionClosed intents privileged c ⟨none, none, rts⟩ =
      (c, Sum.inl true)) ∧
    (∀ code reason rcvd rts, pyNot rts = true →
      Client.handleConnectionClosed intents privileged c ⟨rcvd, some ⟨code, reason⟩, rts⟩ =
        (c, Sum.inl (!(code == 1000 || code == 1001)))) ∧
    (∀ code reason sent rts, (sent = none ∨ pyNot rts = false) →
      code ∈ ([4000, 4001, 4002, 4003, 4005, 4006, 4008] : List Nat) →
      Client.handleConnectionClosed intents privileged c ⟨some ⟨code, reason⟩, sent, rts⟩ =
        (c, Sum.inl true)) ∧
    (∀ code reason sent rts, (sent = none ∨ pyNot rts = false) →
      code ∈ ([4007, 4009] : List Nat) →
      Client.handleConnectionClosed intents privileged c ⟨some ⟨code, reason⟩, sent, rts⟩ =
        ({ c with sessionId := none }, Sum.inl true)) ∧
    (∀ reason sent rts, (sent = none ∨ pyNot rts = false) →
      Client.handleConnectionClosed intents privileged c ⟨some ⟨4004, reason⟩, sent, rts⟩ =
        (c, Sum.inr (ConnectionClosedError.authenticationFailed 4004
          (Client.getConnectionClosedReason ⟨4004, reason⟩)))) ∧
    (∀ reason sent rts, (sent = none ∨ pyNot rts = false) →
      Client.handleConnectionClosed intents privileged c ⟨some ⟨4014, reason⟩, sent, rts⟩ =
        (c, Sum.inr (ConnectionClosedError.privilegedIntents (Nat.land intents privileged) 4014
          (Client.getConnectionClosedReason ⟨4014, reason⟩)))) ∧
    (∀ code reason sent rts, (sent = none ∨ pyNot rts = false) →
      code ∉ GATEWAY_RECONNECT_CLOSE_CODES → code ≠ 4004 → code ≠ 4014 →
      Client.handleConnectionClosed intents privileged c ⟨some ⟨code, reason⟩, sent, rts⟩ =
        (c, Sum.inr (ConnectionClosedError.connectionClosed code
          (Client.getConnectionClosedReason ⟨code, reason⟩)))) := by
  refine ⟨?_, ?_, ?_, ?_, ?_, ?_, ?_⟩
  · intro rts
    unfold Client.handleConnectionClosed
    simp
  · intro code reason rcvd rts hnp
    unfold Client.handleConnectionClosed
    cases rcvd <;> simp [hnp]
  · intro code reason sent rts hnl hc
    rw [handleConnectionClosed_rcvd_branch intents privileged c code reason sent rts hnl]
    fin_cases hc <;> rfl
  · intro code reason sent rts hnl hc
    rw [handleConnectionClosed_rcvd_branch intents privileged c code reason sent rts hnl]
    fin_cases hc <;> rfl
  · intro reason sent rts hnl
    rw [handleConnectionClosed_rcvd_branch intents privileged c 4004 reason sent rts hnl]
    rfl
  · intro reason sent rts hnl
    rw [handleConnectionClosed_rcvd_branch intents privileged c 4014 reason sent rts hnl]
    rfl
  · intro code reason sent rts hnl hnr hne4 hne14
    rw [handleConnectionClosed_rcvd_branch intents privileged c code reason sent rts hnl]
    have hmem : code ≠ 4000 ∧ code ≠ 4001 ∧ code ≠ 4002 ∧ code ≠ 4003 ∧ code ≠ 4005 ∧
        code ≠ 4006 ∧ code ≠ 4007 ∧ code ≠ 4008 ∧ code ≠ 4009 := by
      simp [GATEWAY_RECONNECT_CLOSE_CODES] at hnr
      tauto
    obtain ⟨h0, h1, h2, h3, h5, h6, h7, h8, h9⟩ := hmem
    have hnc : code ∉ GATEWAY_CANNOT_RESUME_CLOSE_CODES := by
      simp [GATEWAY_CANNOT_RESUME_CLOSE_CODES, h7, h9]
    simp [hnr, hnc, Client.makeConnectionClosedError,
      beq_eq_false_iff_ne.mpr hne4, beq_eq_false_iff_ne.mpr hne14]

/-- Witness for C1 at concrete close events, one per row of the
table. -/
theorem handleConnectionClosed_close_code_table_witness :
    (Client.handleConnectionClosed 33539 33026 demoClient ⟨none, none, none⟩ =
      (demoClient, Sum.inl true)) ∧
    (Client.handleConnectionClosed 33539 33026 demoClient
        ⟨none, some ⟨1000, "Going offline"⟩, none⟩ =
      (demoClient, Sum.inl (!((1000 == 1000) || (1000 == 1001))))) ∧
    (Client.handleConnectionClosed 33539 33026 demoClient ⟨some ⟨4000, ""⟩, none, none⟩ =
      (demoClient, Sum.inl true)) ∧
    (Client.handleConnectionClosed 33539 33026 demoClient ⟨some ⟨4007, ""⟩, none, none⟩ =
      ({ demoClient with sessionId := none }, Sum.inl true)) ∧
    (Client.handleConnectionClosed 33539 33026 demoClient ⟨some ⟨4004, ""⟩, none, none⟩ =
      (demoClient, Sum.inr (ConnectionClosedError.authenticationFailed 4004
        (Client.getConnectionClosedReason ⟨4004, ""⟩)))) ∧
    (Client.handleConnectionClosed 33539 33026 demoClient ⟨some ⟨4014, ""⟩, none, none⟩ =
      (demoClient, Sum.inr (ConnectionClosedError.privilegedIntents (Nat.land 33539 33026) 4014
        (Client.getConnectionClosedReason ⟨4014, ""⟩)))) ∧
    (Client.handleConnectionClosed 33539 33026 demoClient ⟨some ⟨4042, ""⟩, none, none⟩ =
      (demoClient, Sum.inr (ConnectionClosedError.connectionClosed 4042
        (Client.getConnectionClosedReason ⟨4042, ""⟩)))) := by
  have h := handleConnectionClosed_close_code_table 33539 33026 demoClient
  exact ⟨h.1 none,
    h.2.1 1000 "Going offline" none none rfl,
    h.2.2.1 4000 "" none none (Or.inl rfl) (by decide),
    h.2.2.2.1 4007 "" none none (Or.inl rfl) (by decide),
    h.2.2.2.2.1 "" none none (Or.inl rfl),
    h.2.2.2.2.2.1 "" none none (Or.inl rfl),
    h.2.2.2.2.2.2 4042 "" none none (Or.inl rfl) (by decide) (by decide) (by decide)⟩

/-- Helper for C3: streaming one record through `ZLibStream.recv`
yields its event once the marker-terminated fragment arrives, leaving
the buffer empty and the record's bytes fed to the decompressor. -/
theorem zlib_recvAll_one_record (inflate : List Nat → List Nat) (parse : List Nat → Option JVal)
    (e : JVal) :
    ∀ (init : List (List Nat)) (lastFrag buffer F c p : List Nat),
      buffer ++ (init ++ [lastFrag]).flatten = c →
      (∀ f ∈ init, Z_SYNC_FLUSH.isSuffixOf f = false) →
      Z_SYNC_FLUSH.isSuffixOf lastFrag = true →
      inflate (F ++ c) = inflate F ++ p →
      parse p = some e →
      ∀ rest, ZLibStream.recvAll inflate parse ⟨buffer, F⟩ (init ++ [lastFrag] ++ rest) =
        e :: ZLibStream.recvAll inflate parse ⟨[], F ++ c⟩ rest := by
  intro init
  induction init with
  | nil =>
    intro lastFrag buffer F c p hcat hinit hlast hinf hp rest
    have hc : buffer ++ lastFrag = c := by simpa using hcat
    simp only [List.nil_append, List.cons_append]
    rw [ZLibStream.recvAll]
    simp only [ZLibStream.recvStep, hlast, if_true]
    rw [show (⟨buffer, F⟩ : ZLibStream).buffer ++ lastFrag = c from hc]
    simp only [decompressChunk]
    rw [show (⟨buffer, F⟩ : ZLibStream).fed ++ c = F ++ c from rfl, hinf,
      List.drop_left, hp]
  | cons f init ih =>
    intro lastFrag buffer F c p hcat hinit hlast hinf hp rest
    have hf : Z_SYNC_FLUSH.isSuffixOf f = false := hinit f (List.mem_cons_self _ _)
    have hrest : ∀ g ∈ init, Z_SYNC_FLUSH.isSuffixOf g = false := fun g hg =>
      hinit g (List.mem_cons_of_mem _ hg)
    have hcat2 : (buffer ++ f) ++ (init ++ [lastFrag]).flatten = c := by
      simpa [List.append_assoc] using hcat
    simp only [List.cons_append]
    rw [ZLibStream.recvAll]
    simp only [ZLibStream.recvStep, hf, Bool.false_eq_true, if_false]
    exact ih lastFrag (buffer ++ f) F c p hcat2 hrest hlast hinf hp rest

/-- Helper for C3: streaming a list of aligned records yields exactly
their events in order. -/
theorem zlib_recvAll_records (inflate : List Nat → List Nat) (parse : List Nat → Option JVal) :
    ∀ (recs : List ZRecord) (chunkss : List (List (List Nat))) (F : List Nat),
      List.Forall₂ (fun chunks r => GoodChunking chunks r.compressed) chunkss recs →
      (∀ k : Nat, inflate (F ++ ((recs.map ZRecord.compressed).take k).flatten) =
        inflate F ++ ((recs.map ZRecord.plain).take k).flatten) →
      (∀ r ∈ recs, parse r.plain = some r.event) →
      ZLibStream.recvAll inflate parse ⟨[], F⟩ chunkss.flatten = recs.map ZRecord.event := by
  intro recs
  induction recs with
  | nil =>
    intro chunkss F hf _ _
    cases hf
    simp [ZLibStream.recvAll]
  | cons r rest ih =>
    intro chunkss F hf hinf hp
    cases hf with
    | cons hchunk htail =>
      obtain ⟨init, lastFrag, rfl, hjoin, hinit, hlast⟩ := hchunk
      have h1 : inflate (F ++ r.compressed) = inflate F ++ r.plain := by
        have h := hinf 1
        simpa using h
      have hstep := zlib_recvAll_one_record inflate parse r.event init lastFrag [] F
        r.compressed r.plain (by simpa using hjoin) hinit hlast h1
        (hp r (List.mem_cons_self _ _))
      rename_i chs
      rw [List.flatten_cons, hstep chs.flatten, List.map_cons]
      refine congrArg (List.cons r.event) (ih chs (F ++ r.compressed) htail ?_ ?_)
      · intro k
        have h := hinf (k + 1)
        simp only [List.map_cons, List.take_succ_cons, List.flatten_cons] at h
        calc inflate (F ++ r.compressed ++ (List.take k (List.map ZRecord.compressed rest)).flatten)
            = inflate (F ++ (r.compressed ++
                (List.take k (List.map ZRecord.compressed rest)).flatten)) := by
              rw [List.append_assoc]
          _ = inflate F ++ (r.plain ++ (List.take k (List.map ZRecord.plain rest)).flatten) := h
          _ = (inflate F ++ r.plain) ++ (List.take k (List.map ZRecord.plain rest)).flatten := by
              rw [List.append_assoc]
          _ = inflate (F ++ r.compressed) ++ (List.take k (List.map ZRecord.plain rest)).flatten := by
              rw [h1]
      · intro g hg
        exact hp g (List.mem_cons_of_mem _ hg)

/-- C3 (amended): for every sequence of binary fragments forming N
complete SYNC_FLUSH-terminated records in which each record's final
marker falls at the end of a fragment and no other fragment ends with
the marker bytes, repeatedly calling `ZLibStream.recv` yields exactly
the N parsed events in order, regardless of how each record's bytes
are split into fragments; the byte buffer is cleared after each
successful decode and the single inflate state persists across
messages.  (`inflate` is the cumulative-output function of the zlib
decompressor, assumed to satisfy the zlib streaming contract on the
records; `parse` is `json.loads`.) -/
theorem zlibStream_recv_framing (inflate : List Nat → List Nat) (parse : List Nat → Option JVal)
    (recs : List ZRecord) (chunkss : List (List (List Nat)))
    (hch : List.Forall₂ (fun chunks r => GoodChunking chunks r.compressed) chunkss recs)
    (hinf : ∀ k : Nat, inflate (((recs.map ZRecord.compressed).take k).flatten) =
      ((recs.map ZRecord.plain).take k).flatten)
    (hp : ∀ r ∈ recs, parse r.plain = some r.event) :
    ZLibStream.recvAll inflate parse ⟨[], []⟩ chunkss.flatten = recs.map ZRecord.event ∧
    (ZLibStream.recvAll inflate parse ⟨[], []⟩ chunkss.flatten).length = recs.length ∧
    (∀ st frag st2 out, ZLibStream.recvStep inflate parse st frag = (st2, some out) →
      st2.buffer = [] ∧ st2.fed = st.fed ++ st.buffer ++ frag) := by
  have h0 : inflate [] = [] := by simpa using hinf 0
  have hmain : ZLibStream.recvAll inflate parse ⟨[], []⟩ chunkss.flatten =
      recs.map ZRecord.event := by
    refine zlib_recvAll_records inflate parse recs chunkss [] hch ?_ hp
    intro k
    simpa [h0] using hinf k
  refine ⟨hmain, by rw [hmain]; simp, ?_⟩
  intro st frag st2 out hstep
  by_cases hsf : Z_SYNC_FLUSH.isSuffixOf frag = true
  · simp only [ZLibStream.recvStep, hsf, if_true] at hstep
    rcases hstep with ⟨rfl, rfl⟩
    exact ⟨rfl, by simp [List.append_assoc]⟩
  · simp only [ZLibStream.recvStep, hsf, Bool.false_eq_true, if_false] at hstep
    simp at hstep

/-- Counterexample for C3 as stated: when two complete
marker-terminated records arrive in a single fragment, the whole
buffer is decompressed and parsed at once, yielding one merged event
(the JSON document "12") instead of the two events 1 and 2 — the
result is not invariant under arbitrary chunking. -/
theorem zlibStream_recv_chunking_counterexample :
    ([[49, 0, 0, 255, 255, 50, 0, 0, 255, 255]] : List (List Nat)).flatten =
      [49, 0, 0, 255, 255] ++ [50, 0, 0, 255, 255] ∧
    ZLibStream.recvAll stripInflate smallJsonLoads ⟨[], []⟩
      [[49, 0, 0, 255, 255, 50, 0, 0, 255, 255]] = [JVal.int 12] ∧
    (ZLibStream.recvAll stripInflate smallJsonLoads ⟨[], []⟩
      [[49, 0, 0, 255, 255, 50, 0, 0, 255, 255]]).length ≠ 2 := by
  refine ⟨rfl, rfl, ?_⟩
  decide

/-- Witness for C3 (amended): two records, the second split across two
fragments, yield exactly the events 1 and 2. -/
theorem zlibStream_recv_framing_witness :
    ZLibStream.recvAll stripInflate smallJsonLoads ⟨[], []⟩
        ([[[49, 0, 0, 255, 255]], [[50], [0, 0, 255, 255]]] : List (List (List Nat))).flatten =
      [JVal.int 1, JVal.int 2] ∧
    (ZLibStream.recvAll stripInflate smallJsonLoads ⟨[], []⟩
        ([[[49, 0, 0, 255, 255]], [[50], [0, 0, 255, 255]]] : List (List (List Nat))).flatten).length
      = 2 := by
  have h := zlibStream_recv_framing stripInflate smallJsonLoads
    [⟨[49, 0, 0, 255, 255], [49], JVal.int 1⟩, ⟨[50, 0, 0, 255, 255], [50], JVal.int 2⟩]
    [[[49, 0, 0, 255, 255]], [[50], [0, 0, 255, 255]]]
    (by
      refine List.Forall₂.cons ⟨[], [49, 0, 0, 255, 255], rfl, rfl, by simp, rfl⟩ ?_
      exact List.Forall₂.cons ⟨[[50]], [0, 0, 255, 255], rfl, rfl, by decide, rfl⟩
        List.Forall₂.nil)
    (by
      intro k
      match k with
      | 0 => rfl
      | 1 => rfl
      | (n + 2) =>
        rw [List.take_of_length_le (by simp), List.take_of_length_le (by simp)]
        rfl)
    (by
      intro r hr
      fin_cases hr <;> rfl)
  exact ⟨h.1, h.2.1⟩
